import Mathlib

/-!
Shallow embedding of the Hessian-free conjugate-gradient notebook
(`Tutorial.ipynb`) over the real numbers, together with theorems checking
the natural-language specification against it.

Conventions of the embedding:
* numpy float arithmetic is modelled by real arithmetic; numpy arrays of
  length `n` are `Fin n → ℝ`, `(n × 3)` matrices are `Fin n → Fin 3 → ℝ`,
  and numpy's elementwise broadcasting is pointwise application;
* `np.transpose` of a one-dimensional array is the identity and is dropped;
* Python runtime exceptions (IndexError, TypeError) are modelled with
  `Except String`; where the source line raises unconditionally (a call with
  the wrong number of arguments, unpacking an integer) the embedding returns
  the corresponding `Except.error` at that point, after performing exactly
  the computations the interpreter would have performed before the raise;
* the `while` loop of `conjugate_gradient` is given an explicit fuel
  argument; `none` means the fuel ran out without the loop terminating.
-/

namespace Tutorial

noncomputable section

/-- Source `gaussian` (the spec's `evaluate`): for a sample position `x`,
`|I| / (sqrt(2π)·σ + 1e-11) · exp(-(x-μ)² / (2σ² + 1e-11))`, written with the
source's intermediate bindings. -/
def gaussian (x I mu sigma : ℝ) : ℝ :=
  let diff := x - mu
  let dist := diff ^ 2
  let exponential := Real.exp (-dist / (2 * sigma ^ 2 + 1e-11))
  let amplitude := |I| / (Real.sqrt (2 * Real.pi) * sigma + 1e-11)
  amplitude * exponential

/-- Source `gaussian_partial_I`: as `gaussian` but with `sign(I)` in place of
`|I|` (the `np.transpose` on the returned one-dimensional array is the
identity). -/
def gaussian_partial_I (x I mu sigma : ℝ) : ℝ :=
  let diff := x - mu
  let dist := diff ^ 2
  let exponential := Real.exp (-dist / (2 * sigma ^ 2 + 1e-11))
  let amplitude := Real.sign I / (Real.sqrt (2 * Real.pi) * sigma + 1e-11)
  amplitude * exponential

/-- Source `gaussian_partial_mu`: amplitude `I·(x-μ) / (sqrt(2π)·σ³)`
(neither denominator regularizer here, as in the source). -/
def gaussian_partial_mu (x I mu sigma : ℝ) : ℝ :=
  let diff := x - mu
  let dist := diff ^ 2
  let exponential := Real.exp (-dist / (2 * sigma ^ 2 + 1e-11))
  let amplitude := I * (x - mu) / (Real.sqrt (2 * Real.pi) * sigma ^ 3)
  amplitude * exponential

/-- Source `gaussian_partial_sigma`: amplitude
`I·((x-μ)²/σ² - 1) / (sqrt(2π)·σ² + 1e-11)`. -/
def gaussian_partial_sigma (x I mu sigma : ℝ) : ℝ :=
  let diff := x - mu
  let dist := diff ^ 2
  let exponential := Real.exp (-dist / (2 * sigma ^ 2 + 1e-11))
  let amplitude := I * ((x - mu) ^ 2 / sigma ^ 2 - 1) / (Real.sqrt (2 * Real.pi) * sigma ^ 2 + 1e-11)
  amplitude * exponential

/-- Source `gaussian_gradient`.  With `direction_vector = none` it stacks the
three partials as the columns of an `(n × 3)` matrix.  With a direction block
supplied, the three scalar parameters are broadcast to per-sample vectors
(`np.ones_like(x) * I` etc.) and offset by the corresponding column of the
block before the partials are evaluated. -/
def gaussian_gradient {n : ℕ} (x : Fin n → ℝ) (I mu sigma : ℝ)
    (direction_vector : Option (Fin n → Fin 3 → ℝ)) : Fin n → Fin 3 → ℝ :=
  match direction_vector with
  | none => fun j =>
      ![gaussian_partial_I (x j) I mu sigma,
        gaussian_partial_mu (x j) I mu sigma,
        gaussian_partial_sigma (x j) I mu sigma]
  | some dv => fun j =>
      let Ij := I + dv j 0
      let muj := mu + dv j 1
      let sigmaj := sigma + dv j 2
      ![gaussian_partial_I (x j) Ij muj sigmaj,
        gaussian_partial_mu (x j) Ij muj sigmaj,
        gaussian_partial_sigma (x j) Ij muj sigmaj]

/-- Source `hessian_product`: finite-difference Hessian-vector product
`(∇f(x + ε·d) - ∇f(x)) / ε`, the perturbed gradient obtained by passing
`ε · direction_vector` as the gradient's direction block. -/
def hessian_product {n : ℕ} (x : Fin n → ℝ) (I mu sigma : ℝ)
    (direction_vector : Fin n → Fin 3 → ℝ) (epsilon : ℝ) : Fin n → Fin 3 → ℝ :=
  let fx_ed := gaussian_gradient x I mu sigma
    (some fun j k => epsilon * direction_vector j k)
  let fx := gaussian_gradient x I mu sigma none
  fun j k => (fx_ed j k - fx j k) / epsilon

/-- Source `pointwise_dotproduct`: reduces two `(n × m)` blocks to an
`n`-vector whose `i`-th entry is the dot product of the `i`-th rows. -/
def pointwise_dotproduct {n m : ℕ}
    (vector hessian_times_direction : Fin n → Fin m → ℝ) : Fin n → ℝ :=
  fun i => ∑ k, vector i k * hessian_times_direction i k

/-- Source `get_alpha`: `-(hess_in·params + pdot(dir_vec, grad_in)) /
(pdot(dir_vec, hess_in) + 1e-11)`, per sample. -/
def get_alpha {n : ℕ} (params : Fin 3 → ℝ)
    (grad_in hess_in dir_vec : Fin n → Fin 3 → ℝ) : Fin n → ℝ :=
  let term1 : Fin n → ℝ := fun i => ∑ k, hess_in i k * params k
  let term2 := pointwise_dotproduct dir_vec grad_in
  let numerator : Fin n → ℝ := fun i => -1 * (term1 i + term2 i)
  let denominator : Fin n → ℝ := fun i => pointwise_dotproduct dir_vec hess_in i + 1e-11
  fun i => numerator i / denominator i

/-- Source `get_beta`: `pdot(grad_in, hess_in) / pdot(dir_vec, hess_in)`,
with no regularizer on the denominator. -/
def get_beta {n : ℕ} (grad_in hess_in dir_vec : Fin n → Fin 3 → ℝ) : Fin n → ℝ :=
  let numerator := pointwise_dotproduct grad_in hess_in
  let denominator := pointwise_dotproduct dir_vec hess_in
  fun i => numerator i / denominator i

/-- The index list of Python's `range(0, len, 3)`. -/
def pyRange3 (len : ℕ) : List ℕ :=
  List.range' 0 ((len + 2) / 3) 3

/-- Loop body of source `multiple_gaussians`: runs over the indices of
`range(0, len(params), 3)`, accumulating `gaussian(x, params[i], params[i+1],
params[i+2])`; an out-of-range element access raises IndexError, with the sum
accumulated so far lost. -/
def multiple_gaussians_loop (x : ℝ) (params : List ℝ) :
    List ℕ → ℝ → Except String ℝ
  | [], acc => .ok acc
  | i :: rest, acc =>
      match params[i]?, params[i+1]?, params[i+2]? with
      | some a, some b, some c =>
          multiple_gaussians_loop x params rest (acc + gaussian x a b c)
      | _, _, _ => .error "IndexError"

/-- Source `multiple_gaussians`: sum of one Gaussian per consecutive
parameter triple, starting from `np.zeros_like(x)`.  No length validation is
performed before the loop runs. -/
def multiple_gaussians (x : ℝ) (params : List ℝ) : Except String ℝ :=
  multiple_gaussians_loop x params (pyRange3 params.length) 0

/-- Observer on the `multiple_gaussians` loop: how many loop iterations
complete (one Gaussian evaluated and added per iteration) before the loop
either finishes or raises IndexError. -/
def multiple_gaussians_loop_steps (params : List ℝ) : List ℕ → ℕ
  | [] => 0
  | i :: rest =>
      match params[i]?, params[i+1]?, params[i+2]? with
      | some _, some _, some _ => 1 + multiple_gaussians_loop_steps params rest
      | _, _, _ => 0

/-- Number of complete peak evaluations `multiple_gaussians` performs on
`params` before returning or raising. -/
def multiple_gaussians_steps (params : List ℝ) : ℕ :=
  multiple_gaussians_loop_steps params (pyRange3 params.length)

/-- Source `list_dirvecs`.  The source iterates
`for triplet in range(0, len(start_params), 3)` — so `triplet` is the integer
loop index — and calls `gaussian_gradient(x, *triplet)`; unpacking an integer
argument raises TypeError, so every loop iteration raises.  Each iteration is
therefore modelled as `Except.error "TypeError"`; with no iterations (empty
parameter list) the empty output list is returned. -/
def list_dirvecs {n : ℕ} (x : Fin n → ℝ) (start_params : List ℝ) :
    Except String (List (Fin n → Fin 3 → ℝ)) :=
  (pyRange3 start_params.length).mapM fun _triplet =>
    (Except.error "TypeError" : Except String (Fin n → Fin 3 → ℝ))

/-- Source `single_iter`.  It computes the gradient, Hessian-vector product
(with the gradient itself as the direction and `epsilon = 1e-5`), the alpha
vector, and the updated parameter triple `attempt + alpha · dir_vec`; the
source then calls `get_beta(x, grad_vec, hess_vec, dir_vec)` — but `get_beta`
takes three arguments, so this call raises TypeError and neither the updated
parameters nor a new direction vector is ever returned.  An `attempt` that is
not a 3-element list makes already the unpacking `gaussian_gradient(x,
*attempt)` raise TypeError. -/
def single_iter {n : ℕ} (x : Fin n → ℝ) (attempt : List ℝ)
    (dir_vec : Fin n → Fin 3 → ℝ) :
    Except String ((Fin 3 → ℝ) × (Fin n → Fin 3 → ℝ) × (Fin n → ℝ) × (Fin n → ℝ)) :=
  match attempt with
  | [I0, mu0, sigma0] =>
      let grad_vec := gaussian_gradient x I0 mu0 sigma0 none
      let hess_vec := hessian_product x I0 mu0 sigma0 grad_vec 1e-5
      let params : Fin 3 → ℝ := ![I0, mu0, sigma0]
      let alpha := get_alpha params grad_vec hess_vec dir_vec
      let attempt1 : Fin 3 → ℝ := fun k => params k + ∑ j, alpha j * dir_vec j k
      Except.error "TypeError"
  | _ => Except.error "TypeError"

/-- Python slice `params[i : i+3]`. -/
def slice3 (params : List ℝ) (i : ℕ) : List ℝ :=
  (params.drop i).take 3

/-- The `while switch` loop of source `conjugate_gradient`, with explicit
fuel.  The body runs `single_iter` on every (attempt, direction) pair of
`zip(attempts, prev_dirvecs)` and discards the results; an exception raised
by `single_iter` propagates out.  Nothing in the body ever sets `switch` to
`False`, so after a body without an exception the loop runs again; `none`
means the fuel was exhausted with the loop still running. -/
def conjugate_gradient_loop {n : ℕ} (x : Fin n → ℝ)
    (attempts : List (List ℝ)) (prev_dirvecs : List (Fin n → Fin 3 → ℝ)) :
    ℕ → Option (Except String Unit)
  | 0 => none
  | fuel + 1 =>
      match (attempts.zip prev_dirvecs).mapM (fun p => single_iter x p.1 p.2) with
      | .error e => some (.error e)
      | .ok _ => conjugate_gradient_loop x attempts prev_dirvecs fuel

/-- Source `conjugate_gradient`: slices `start_params` into `attempts`,
builds the initial direction vectors with `list_dirvecs` (whose exception
propagates), then enters the unconditional `while switch` loop.  `y` is never
used, as in the source.  `some r` is the raised-exception outcome `r`;
`none` means the fuel ran out without the loop terminating. -/
def conjugate_gradient {n : ℕ} (x y : Fin n → ℝ) (start_params : List ℝ)
    (fuel : ℕ) : Option (Except String Unit) :=
  let attempts := (pyRange3 start_params.length).map (slice3 start_params)
  match list_dirvecs x start_params with
  | .error e => some (.error e)
  | .ok prev_dirvecs => conjugate_gradient_loop x attempts prev_dirvecs fuel

end

end Tutorial

namespace SpecSide

noncomputable section

/-- Modelled from the spec's words (§4.1): the `evaluate` operation,
`y = (|I| / (sqrt(2π)·σ + ε)) · exp(-(x-μ)² / (2σ² + ε))` with `ε = 1e-11`
in both denominators.  Used only to compare with the source's `gaussian`. -/
def evaluate (x I mu sigma : ℝ) : ℝ :=
  |I| / (Real.sqrt (2 * Real.pi) * sigma + 1e-11)
    * Real.exp (-(x - mu) ^ 2 / (2 * sigma ^ 2 + 1e-11))

/-- Modelled from the spec's words (§4.2, direction-supplied case): the three
parameters are broadcast to per-sample vectors and offset by the matching
column of the direction block, and the three partials evaluated there are
stacked as columns.  Used only to compare with the source. -/
def gradient_with_direction {n : ℕ} (x : Fin n → ℝ) (I mu sigma : ℝ)
    (direction : Fin n → Fin 3 → ℝ) : Fin n → Fin 3 → ℝ :=
  fun j =>
    ![Tutorial.gaussian_partial_I (x j) (I + direction j 0) (mu + direction j 1)
        (sigma + direction j 2),
      Tutorial.gaussian_partial_mu (x j) (I + direction j 0) (mu + direction j 1)
        (sigma + direction j 2),
      Tutorial.gaussian_partial_sigma (x j) (I + direction j 0) (mu + direction j 1)
        (sigma + direction j 2)]

/-- Modelled from the spec's words (§4.3): `hessian_vector_product` is
`(gradient(x, peak, ε·direction) - gradient(x, peak, none)) / ε`, the
entries of the direction block each scaled by `ε`. -/
def hessian_vector_product {n : ℕ} (x : Fin n → ℝ) (I mu sigma : ℝ)
    (direction : Fin n → Fin 3 → ℝ) (epsilon : ℝ) : Fin n → Fin 3 → ℝ :=
  fun j k =>
    (gradient_with_direction x I mu sigma (fun j' k' => epsilon * direction j' k') j k
      - Tutorial.gaussian_gradient x I mu sigma none j k) / epsilon

/-- Modelled from the spec's words (§4.4): the step-size operation,
`alpha_j = -((hess·params)_j + pdot(dir, grad)_j) / (pdot(dir, hess)_j + ε)`
with `ε = 1e-11`, `pdot` the row-wise inner product. -/
def alpha {n : ℕ} (params : Fin 3 → ℝ)
    (gradient_block hessian_vector_block direction_block : Fin n → Fin 3 → ℝ) :
    Fin n → ℝ :=
  fun j =>
    -((∑ k, hessian_vector_block j k * params k)
        + Tutorial.pointwise_dotproduct direction_block gradient_block j)
      / (Tutorial.pointwise_dotproduct direction_block hessian_vector_block j + 1e-11)

end

end SpecSide

/-- C2: the source `hessian_product` returns exactly
`(gradient(x, peak, ε·direction) - gradient(x, peak, none)) / ε`, where the
direction-supplied gradient broadcasts the three parameters to per-sample
vectors and offsets each by the matching column of the direction block before
evaluating the three partials — the spec's `hessian_vector_product`. -/
theorem C2_hessian_product_matches_spec {n : ℕ} (x : Fin n → ℝ) (I mu sigma : ℝ)
    (direction : Fin n → Fin 3 → ℝ) (epsilon : ℝ) :
    Tutorial.hessian_product x I mu sigma direction epsilon
      = SpecSide.hessian_vector_product x I mu sigma direction epsilon := rfl

/-- C3: the source `get_alpha` returns, at every sample row `j`,
`-((hess_in · params)_j + pdot(dir_vec, grad_in)_j) /
(pdot(dir_vec, hess_in)_j + 1e-11)` — the spec's `alpha`. -/
theorem C3_get_alpha_matches_spec {n : ℕ} (params : Fin 3 → ℝ)
    (grad_in hess_in dir_vec : Fin n → Fin 3 → ℝ) :
    Tutorial.get_alpha params grad_in hess_in dir_vec
      = SpecSide.alpha params grad_in hess_in dir_vec := by
  funext j
  simp only [Tutorial.get_alpha, SpecSide.alpha, neg_one_mul, neg_div]

/-- C8: applying the source `hessian_product` with the all-zero direction
block returns the zero block, for every `epsilon > 0`: the zero perturbation
leaves all three parameters unchanged, so the finite difference vanishes. -/
theorem C8_hessian_product_zero_direction {n : ℕ} (x : Fin n → ℝ)
    (I mu sigma epsilon : ℝ) (h : 0 < epsilon) :
    Tutorial.hessian_product x I mu sigma (fun _ _ => 0) epsilon
      = fun _ _ => 0 := by
  funext j k
  simp only [Tutorial.hessian_product, Tutorial.gaussian_gradient, mul_zero, add_zero,
    sub_self, zero_div]

/-- Witness for C8 at `n = 1`, `x = 0`, `I = 1`, `mu = 0`, `sigma = 1`,
`epsilon = 1`. -/
theorem C8_witness :
    Tutorial.hessian_product (fun _ : Fin 1 => 0) 1 0 1 (fun _ _ => 0) 1
      = fun _ _ => 0 :=
  C8_hessian_product_zero_direction (fun _ : Fin 1 => 0) 1 0 1 1 one_pos

namespace C9Blocks

/-- Concrete gradient block for C9: every entry `1`. -/
noncomputable def gradB : Fin 1 → Fin 3 → ℝ := fun _ _ => 1

/-- Concrete Hessian-vector block for C9: every entry `1`. -/
noncomputable def hessB : Fin 1 → Fin 3 → ℝ := fun _ _ => 1

/-- Concrete direction block for C9: every entry `0`. -/
noncomputable def dirB : Fin 1 → Fin 3 → ℝ := fun _ _ => 0

end C9Blocks

/-- C9: the source `get_beta` divides `pdot(grad_in, hess_in)` by
`pdot(dir_vec, hess_in)` with no `1e-11` guard, and there are input blocks on
which that denominator is exactly `0` at a sample row while the numerator is
not — a genuine division by zero, so `get_beta` is not total over its input
domain. -/
theorem C9_get_beta_unguarded_zero_denominator :
    (∀ (n : ℕ) (grad_in hess_in dir_vec : Fin n → Fin 3 → ℝ) (j : Fin n),
        Tutorial.get_beta grad_in hess_in dir_vec j
          = Tutorial.pointwise_dotproduct grad_in hess_in j
              / Tutorial.pointwise_dotproduct dir_vec hess_in j)
    ∧ Tutorial.pointwise_dotproduct C9Blocks.dirB C9Blocks.hessB 0 = 0
    ∧ Tutorial.pointwise_dotproduct C9Blocks.gradB C9Blocks.hessB 0 ≠ 0 := by
  refine ⟨fun n grad_in hess_in dir_vec j => rfl, ?_, ?_⟩
  · simp [Tutorial.pointwise_dotproduct, C9Blocks.dirB, C9Blocks.hessB]
  · simp [Tutorial.pointwise_dotproduct, C9Blocks.gradB, C9Blocks.hessB,
      Finset.sum_const, Finset.card_univ]

namespace C4Input

/-- A 10-element parameter vector: length not a multiple of 3. -/
noncomputable def p10 : List ℝ := [1, 0, 1, 1, 0, 1, 1, 0, 1, 1]

end C4Input

/-- Helper for C4: running the `multiple_gaussians` loop over the index list
`[s, s+3, …, s+3n]` with `s + 3n = 3·(len/3)` and `len % 3 ∈ {1, 2}` ends in
IndexError: the last index reads past the end of `params`. -/
lemma multiple_gaussians_loop_indexerror (x : ℝ) (params : List ℝ) (T r : ℕ)
    (hr : r = 1 ∨ r = 2) (hL : params.length = 3 * T + r) :
    ∀ n s : ℕ, s + 3 * n = 3 * T → ∀ acc : ℝ,
      Tutorial.multiple_gaussians_loop x params (List.range' s (n + 1) 3) acc
        = Except.error "IndexError" := by
  intro n
  induction n with
  | zero =>
    intro s hs acc
    have hs' : s = 3 * T := by omega
    subst hs'
    rw [List.range'_one]
    cases h0 : params[3 * T]? with
    | none =>
      exact absurd (List.getElem?_eq_none_iff.mp h0) (by omega)
    | some a =>
      rcases hr with hr | hr
      · have h1 : params[3 * T + 1]? = none :=
          List.getElem?_eq_none_iff.mpr (by omega)
        simp [Tutorial.multiple_gaussians_loop, h0, h1]
      · cases h1 : params[3 * T + 1]? with
        | none => exact absurd (List.getElem?_eq_none_iff.mp h1) (by omega)
        | some b =>
          have h2 : params[3 * T + 1 + 1]? = none :=
            List.getElem?_eq_none_iff.mpr (by omega)
          simp [Tutorial.multiple_gaussians_loop, h0, h1, h2]
  | succ m ih =>
    intro s hs acc
    rw [List.range'_succ]
    cases h0 : params[s]? with
    | none => exact absurd (List.getElem?_eq_none_iff.mp h0) (by omega)
    | some a =>
      cases h1 : params[s + 1]? with
      | none => exact absurd (List.getElem?_eq_none_iff.mp h1) (by omega)
      | some b =>
        cases h2 : params[s + 1 + 1]? with
        | none => exact absurd (List.getElem?_eq_none_iff.mp h2) (by omega)
        | some c =>
          simp only [Tutorial.multiple_gaussians_loop, h0, h1, h2]
          exact ih (s + 3) (by omega) (acc + Tutorial.gaussian x a b c)

/-- Helper for C4: under the same hypotheses, all loop iterations except the
last complete a full Gaussian evaluation, so the step count over `n + 1`
indices is `n`. -/
lemma multiple_gaussians_loop_steps_count (params : List ℝ) (T r : ℕ)
    (hr : r = 1 ∨ r = 2) (hL : params.length = 3 * T + r) :
    ∀ n s : ℕ, s + 3 * n = 3 * T →
      Tutorial.multiple_gaussians_loop_steps params (List.range' s (n + 1) 3) = n := by
  intro n
  induction n with
  | zero =>
    intro s hs
    have hs' : s = 3 * T := by omega
    subst hs'
    rw [List.range'_one]
    cases h0 : params[3 * T]? with
    | none =>
      exact absurd (List.getElem?_eq_none_iff.mp h0) (by omega)
    | some a =>
      rcases hr with hr | hr
      · have h1 : params[3 * T + 1]? = none :=
          List.getElem?_eq_none_iff.mpr (by omega)
        simp [Tutorial.multiple_gaussians_loop_steps, h0, h1]
      · cases h1 : params[3 * T + 1]? with
        | none => exact absurd (List.getElem?_eq_none_iff.mp h1) (by omega)
        | some b =>
          have h2 : params[3 * T + 1 + 1]? = none :=
            List.getElem?_eq_none_iff.mpr (by omega)
          simp [Tutorial.multiple_gaussians_loop_steps, h0, h1, h2]
  | succ m ih =>
    intro s hs
    rw [List.range'_succ]
    cases h0 : params[s]? with
    | none => exact absurd (List.getElem?_eq_none_iff.mp h0) (by omega)
    | some a =>
      cases h1 : params[s + 1]? with
      | none => exact absurd (List.getElem?_eq_none_iff.mp h1) (by omega)
      | some b =>
        cases h2 : params[s + 1 + 1]? with
        | none => exact absurd (List.getElem?_eq_none_iff.mp h2) (by omega)
        | some c =>
          have key : 1 + Tutorial.multiple_gaussians_loop_steps params
              (List.range' (s + 3) (m + 1) 3) = m + 1 := by
            rw [ih (s + 3) (by omega)]
            omega
          simp only [Tutorial.multiple_gaussians_loop_steps, h0, h1, h2]
          exact key

/-- C4 counterexample: on the 10-element parameter vector, the code does not
report any ConfigurationError before computing — `multiple_gaussians`
evaluates three complete Gaussian peaks and then raises IndexError from
inside the loop. -/
theorem C4_counterexample :
    Tutorial.multiple_gaussians 0 C4Input.p10 = Except.error "IndexError"
    ∧ Tutorial.multiple_gaussians_steps C4Input.p10 = 3 :=
  ⟨rfl, rfl⟩

/-- C4 (amended): for every parameter vector whose length is not a multiple
of 3, `multiple_gaussians` performs no upfront validation: it synthesizes all
`len / 3` complete peak triples and only then fails with an IndexError when
reading past the end of the vector. -/
theorem C4_amended_no_validation_indexerror (x : ℝ) (params : List ℝ)
    (h : params.length % 3 ≠ 0) :
    Tutorial.multiple_gaussians x params = Except.error "IndexError"
    ∧ Tutorial.multiple_gaussians_steps params = params.length / 3 := by
  have hr : params.length % 3 = 1 ∨ params.length % 3 = 2 := by omega
  have hL : params.length = 3 * (params.length / 3) + params.length % 3 := by omega
  have hcount : (params.length + 2) / 3 = params.length / 3 + 1 := by omega
  have hrange : Tutorial.pyRange3 params.length
      = List.range' 0 (params.length / 3 + 1) 3 := by
    unfold Tutorial.pyRange3
    rw [hcount]
  constructor
  · unfold Tutorial.multiple_gaussians
    rw [hrange]
    exact multiple_gaussians_loop_indexerror x params (params.length / 3)
      (params.length % 3) hr hL (params.length / 3) 0 (by omega) 0
  · unfold Tutorial.multiple_gaussians_steps
    rw [hrange]
    exact multiple_gaussians_loop_steps_count params (params.length / 3)
      (params.length % 3) hr hL (params.length / 3) 0 (by omega)

/-- Witness for the amended C4 at the concrete 10-element vector. -/
theorem C4_witness :
    Tutorial.multiple_gaussians 0 C4Input.p10 = Except.error "IndexError"
    ∧ Tutorial.multiple_gaussians_steps C4Input.p10 = C4Input.p10.length / 3 :=
  C4_amended_no_validation_indexerror 0 C4Input.p10 (by decide)

namespace DriverInput

/-- One sample position, at `0`. -/
noncomputable def xs : Fin 1 → ℝ := fun _ => 0

/-- One observed value, at `0`. -/
noncomputable def ys : Fin 1 → ℝ := fun _ => 0

/-- A zero direction block. -/
noncomputable def dirZero : Fin 1 → Fin 3 → ℝ := fun _ _ => 0

/-- A single well-formed parameter triple. -/
noncomputable def p3 : List ℝ := [1, 2, 3]

end DriverInput

/-- C5: evaluating the driver at a concrete well-formed input shows that no
direction vector is ever produced: `list_dirvecs` raises TypeError on its
first iteration (it unpacks the integer loop index, and as written would not
negate the gradient anyway), and `single_iter` raises TypeError at its
four-argument `get_beta` call, before the direction update
`-grad_vec + beta·dir_vec` can run. -/
theorem C5_direction_code_raises_typeerror :
    Tutorial.list_dirvecs DriverInput.xs DriverInput.p3 = Except.error "TypeError"
    ∧ Tutorial.single_iter DriverInput.xs DriverInput.p3 DriverInput.dirZero
        = Except.error "TypeError" :=
  ⟨rfl, rfl⟩

/-- Helper for C6: with no parameter triples the `while switch` loop never
terminates — the body never modifies `switch` — so every amount of fuel runs
out. -/
lemma conjugate_gradient_loop_empty_runs_forever {n : ℕ} (x : Fin n → ℝ) :
    ∀ fuel : ℕ, Tutorial.conjugate_gradient_loop x [] [] fuel = none := by
  intro fuel
  induction fuel with
  | zero => rfl
  | succ f ih => exact ih

/-- C6: the optimization loop never terminates normally.  With an empty
parameter vector the `while switch` loop runs forever (no threshold or
iteration-cap check exists and `switch` is never set to `False`): every fuel
amount is exhausted.  With a nonempty parameter vector, `conjugate_gradient`
raises TypeError in `list_dirvecs` before the loop even starts, for every
fuel amount. -/
theorem C6_conjugate_gradient_never_terminates_normally :
    (∀ fuel : ℕ,
        Tutorial.conjugate_gradient DriverInput.xs DriverInput.ys ([] : List ℝ) fuel
          = none)
    ∧ (∀ fuel : ℕ,
        Tutorial.conjugate_gradient DriverInput.xs DriverInput.ys DriverInput.p3 fuel
          = some (Except.error "TypeError")) := by
  constructor
  · intro fuel
    show Tutorial.conjugate_gradient_loop DriverInput.xs [] [] fuel = none
    exact conjugate_gradient_loop_empty_runs_forever DriverInput.xs fuel
  · intro fuel
    rfl

/-- C1: for every sample position and parameters, the source `gaussian`
returns `(|I| / (sqrt(2π)·σ + 1e-11)) · exp(-(x-μ)² / (2σ² + 1e-11))`, the
regularizer `1e-11` appearing in both denominators, exactly as the spec's
`evaluate` states. -/
theorem C1_gaussian_matches_spec_evaluate (x I mu sigma : ℝ) :
    Tutorial.gaussian x I mu sigma = SpecSide.evaluate x I mu sigma := rfl

/-- C7: the source `gaussian` is symmetric about `mu`: evaluating at
`mu + d` and at `mu - d` gives the same value, for every `sigma ≠ 0`
(indeed for every `sigma`). -/
theorem C7_gaussian_symmetric_about_mu (I mu sigma d : ℝ) (h : sigma ≠ 0) :
    Tutorial.gaussian (mu + d) I mu sigma = Tutorial.gaussian (mu - d) I mu sigma := by
  have hsq : (mu + d - mu) ^ 2 = (mu - d - mu) ^ 2 := by ring
  simp only [Tutorial.gaussian, hsq]

/-- Witness for C7 at `I = 1`, `mu = 0`, `sigma = 1`, `d = 2`. -/
theorem C7_witness :
    Tutorial.gaussian (0 + 2) 1 0 1 = Tutorial.gaussian (0 - 2) 1 0 1 :=
  C7_gaussian_symmetric_about_mu 1 0 1 2 one_ne_zero

/-- C10: for every `sigma > 0` and every amplitude `I` (any sign), center and
sample position, the source `gaussian` is nonnegative: the numerator is
`|I| ≥ 0`, the regularized denominator is positive, and the exponential is
positive. -/
theorem C10_gaussian_nonneg (x I mu sigma : ℝ) (h : 0 < sigma) :
    0 ≤ Tutorial.gaussian x I mu sigma := by
  unfold Tutorial.gaussian
  have h1 : (0 : ℝ) ≤ Real.sqrt (2 * Real.pi) * sigma :=
    mul_nonneg (Real.sqrt_nonneg _) h.le
  have h2 : (0 : ℝ) < 1e-11 := by norm_num
  have hd : (0 : ℝ) ≤ Real.sqrt (2 * Real.pi) * sigma + 1e-11 := by linarith
  exact mul_nonneg (div_nonneg (abs_nonneg _) hd) (Real.exp_pos _).le

/-- Witness for C10 at `x = 3`, `I = -5`, `mu = 1`, `sigma = 1`. -/
theorem C10_witness : 0 ≤ Tutorial.gaussian 3 (-5) 1 1 :=
  C10_gaussian_nonneg 3 (-5) 1 1 one_pos
